import Mathlib

/-!
Shallow embedding of the dtaianomaly pipeline-composition layer.

Source files embedded:
  * src/dtaianomaly/pipeline/Pipeline.py          (Pipeline)
  * src/src/workflows/handle_algorithm_configuration.py
  * src/dtaianomaly/workflow/handle_output_configuration.py

The Preprocessor, ChainedPreprocessor, BaseDetector and is_valid_list
collaborators live elsewhere in the repository; the definitions for them
below are modelled from the spec and say so in their doc comments.

Python in-place mutation is made explicit: a stateful component carries an
abstract fitted state (a Nat) and each mutating call returns the component
with its new state together with its result.  A call that raises still
returns the state reached before the exception, since a raised Python
exception leaves prior in-place mutation visible to the caller.
-/

/-- Time-series data: one integer sample per time step. -/
abbrev Data := List Int

/-- Optional ground-truth labels; Python passes y as None when absent. -/
abbrev OptLabels := Option (List Int)

/-- Real-valued anomaly scores, one per (possibly transformed) time step. -/
abbrev Scores := List Rat

/-- Failures surfaced by the embedded code.  invalidArgument models the
TypeError raised by construction-time validation (the error the spec calls
InvalidArgument); unknownAlgorithm models the AttributeError from the
dynamic class lookup (the error the spec calls UnknownAlgorithm);
componentFailure stands for an arbitrary failure raised by a wrapped
component; attributeNotFound models access to a missing attribute. -/
inductive Err where
  | invalidArgument (msg : String)
  | unknownAlgorithm (name : String)
  | componentFailure (tag : Nat)
  | attributeNotFound (name : String)
  deriving DecidableEq, Repr

/-- Modelled from the spec: the supervision-mode tag carried by a detector
(BaseDetector is not under src/): unsupervised, semi-supervised or
supervised. -/
inductive Supervision where
  | unsupervised
  | semi_supervised
  | supervised
  deriving DecidableEq, Repr

/-- Modelled from the spec: the behaviour of a concrete Preprocessor
capability (the Preprocessor base class is not under src/).  ft is
fit_transform over the opaque fitted state: it returns the new state and
either the transformed (data, labels) or a failure; the new state is
returned even on failure.  tr is transform, which does not refit.  descr
is the rendering used for composition strings. -/
structure PreprocessorBehavior where
  ft : Nat → Data → OptLabels → Nat × Except Err (Data × OptLabels)
  tr : Nat → Data → OptLabels → Except Err (Data × OptLabels)
  descr : String

/-- Modelled from the spec: a Preprocessor capability is a behaviour
together with its current fitted state. -/
structure Preprocessor where
  behavior : PreprocessorBehavior
  st : Nat

/-- Calling fit_transform on a Preprocessor: run the behaviour on the
current state, keep the new state. -/
def Preprocessor.fit_transform (p : Preprocessor) (X : Data) (y : OptLabels) :
    Preprocessor × Except Err (Data × OptLabels) :=
  let r := p.behavior.ft p.st X y
  (⟨p.behavior, r.1⟩, r.2)

/-- Calling transform on a Preprocessor: no refitting, the state is read
but not changed. -/
def Preprocessor.transform (p : Preprocessor) (X : Data) (y : OptLabels) :
    Except Err (Data × OptLabels) :=
  p.behavior.tr p.st X y

/-- Rendering of a Preprocessor. -/
def Preprocessor.descr (p : Preprocessor) : String :=
  p.behavior.descr

namespace ChainedPreprocessor

/-- Modelled from the spec: FitTransform of a Chained Preprocessor folds
left over the owned sequence, each step receiving the output of the
previous one; each step keeps its mutated state, and a failing step stops
the fold with the already-fit prefix left mutated. -/
def fit_transform : List Preprocessor → Data → OptLabels →
    List Preprocessor × Except Err (Data × OptLabels)
  | [], X, y => ([], .ok (X, y))
  | p :: rest, X, y =>
    match p.fit_transform X y with
    | (p', .error e) => (p' :: rest, .error e)
    | (p', .ok (X', y')) =>
      let r := fit_transform rest X' y'
      (p' :: r.1, r.2)

/-- Modelled from the spec: Transform of a Chained Preprocessor is the
identical fold using each step transform, with no refitting. -/
def transform : List Preprocessor → Data → OptLabels →
    Except Err (Data × OptLabels)
  | [], X, y => .ok (X, y)
  | p :: rest, X, y =>
    match p.transform X y with
    | .error e => .error e
    | .ok (X', y') => transform rest X' y'

/-- Modelled from the spec: a Chained Preprocessor renders all of its
steps. -/
def str (ps : List Preprocessor) : String :=
  String.intercalate "->" (ps.map Preprocessor.descr)

end ChainedPreprocessor

/-- Modelled from the spec: the behaviour of a Detector capability
(BaseDetector is not under src/).  fitB mutates the fitted state and may
fail, the reached state being kept on failure; df is decision_function;
supervisionTag is the read-only supervision mode. -/
structure DetectorBehavior where
  fitB : Nat → Data → OptLabels → Nat × Option Err
  df : Nat → Data → Except Err Scores
  supervisionTag : Supervision
  descr : String

/-- Modelled from the spec: a Detector capability is a behaviour together
with its current fitted state. -/
structure BaseDetector where
  behavior : DetectorBehavior
  st : Nat

/-- Calling fit on a detector: run the behaviour, keep the new state. -/
def BaseDetector.fit (d : BaseDetector) (X : Data) (y : OptLabels) :
    BaseDetector × Option Err :=
  let r := d.behavior.fitB d.st X y
  (⟨d.behavior, r.1⟩, r.2)

/-- Calling decision_function on a detector. -/
def BaseDetector.decision_function (d : BaseDetector) (X : Data) :
    Except Err Scores :=
  d.behavior.df d.st X

/-- The read-only supervision tag of a detector. -/
def BaseDetector.supervision (d : BaseDetector) : Supervision :=
  d.behavior.supervisionTag

/-- Rendering of a detector. -/
def BaseDetector.descr (d : BaseDetector) : String :=
  d.behavior.descr

/-- A Python value as it may be passed to the Pipeline constructor: an
actual Preprocessor, an actual detector, a Python list, or any other
object. -/
inductive PyVal where
  | preproc (p : Preprocessor)
  | detector (d : BaseDetector)
  | pyList (vs : List PyVal)
  | other (tag : Nat)

/-- isinstance(v, Preprocessor). -/
def isinstancePreprocessor : PyVal → Bool
  | .preproc _ => true
  | _ => false

/-- isinstance(v, BaseDetector). -/
def isinstanceBaseDetector : PyVal → Bool
  | .detector _ => true
  | _ => false

/-- Modelled from the spec: dtaianomaly.utils.is_valid_list is not under
src/; per the spec a preprocessor sequence must be non-empty and every
element must satisfy the Preprocessor capability. -/
def is_valid_list : PyVal → Bool
  | .pyList vs => !vs.isEmpty && vs.all isinstancePreprocessor
  | _ => false

/-- The underlying Preprocessor of every element of a Python list, when
each element is one. -/
def extractPreprocessors : List PyVal → Option (List Preprocessor)
  | [] => some []
  | .preproc p :: rest => (extractPreprocessors rest).map (p :: ·)
  | _ :: _ => none

/-- Modelled from the spec: constructing a Chained Preprocessor — the
sequence must be non-empty and every element must satisfy the Preprocessor
capability, else InvalidArgument. -/
def ChainedPreprocessor.init (vs : List PyVal) :
    Except Err (List Preprocessor) :=
  if vs.isEmpty then
    .error (.invalidArgument "expected a non-empty list of preprocessors")
  else
    match extractPreprocessors vs with
    | some ps => .ok ps
    | none => .error (.invalidArgument "expected a list of Preprocessors")

/-- The preprocessor slot of a Pipeline: either a bare Preprocessor or a
Chained Preprocessor wrapping a sequence of steps. -/
inductive AnyPreprocessor where
  | base (p : Preprocessor)
  | chained (ps : List Preprocessor)

/-- fit_transform through the preprocessor slot. -/
def AnyPreprocessor.fit_transform :
    AnyPreprocessor → Data → OptLabels →
      AnyPreprocessor × Except Err (Data × OptLabels)
  | .base p, X, y =>
    let r := p.fit_transform X y
    (.base r.1, r.2)
  | .chained ps, X, y =>
    let r := ChainedPreprocessor.fit_transform ps X y
    (.chained r.1, r.2)

/-- transform through the preprocessor slot. -/
def AnyPreprocessor.transform :
    AnyPreprocessor → Data → OptLabels → Except Err (Data × OptLabels)
  | .base p, X, y => p.transform X y
  | .chained ps, X, y => ChainedPreprocessor.transform ps X y

/-- Rendering of the preprocessor slot. -/
def AnyPreprocessor.str : AnyPreprocessor → String
  | .base p => p.descr
  | .chained ps => ChainedPreprocessor.str ps

/-- A Pipeline: the supervision mode stored by the BaseDetector super
constructor, the owned preprocessor and detector.  oid models Python
object identity (id(self)) so that return-self can be stated. -/
structure Pipeline where
  oid : Nat
  supervision : Supervision
  preprocessor : AnyPreprocessor
  detector : BaseDetector

/-- Pipeline.__init__ from src/dtaianomaly/pipeline/Pipeline.py: validate
the preprocessor argument (a Preprocessor or a valid list of them), then
the detector argument, take the supervision mode verbatim from the
detector, and wrap a list argument in a Chained Preprocessor. -/
def Pipeline.init (oid : Nat) (preprocessor detector : PyVal) :
    Except Err Pipeline :=
  if !(isinstancePreprocessor preprocessor || is_valid_list preprocessor) then
    .error (.invalidArgument
      "preprocessor expects a Preprocessor object or list of Preprocessors")
  else if !(isinstanceBaseDetector detector) then
    .error (.invalidArgument "detector expects a BaseDetector object")
  else
    match preprocessor, detector with
    | .pyList vs, .detector d =>
      (ChainedPreprocessor.init vs).map fun ps =>
        ⟨oid, d.supervision, .chained ps, d⟩
    | .preproc p, .detector d =>
      .ok ⟨oid, d.supervision, .base p, d⟩
    | _, _ =>
      .error (.invalidArgument "unreachable: guarded by the checks above")

/-- Pipeline.fit from the source: X, y = self.preprocessor.fit_transform(X, y);
self.detector.fit(X, y); return self.  The returned Pipeline is the same
object (same oid) with the in-place mutation of its components made
explicit; an error raised by a component is returned alongside the object
state reached when it was raised. -/
def Pipeline.fit (p : Pipeline) (X : Data) (y : OptLabels) :
    Pipeline × Option Err :=
  match p.preprocessor.fit_transform X y with
  | (pre', .error e) => ({ p with preprocessor := pre' }, some e)
  | (pre', .ok (X', y')) =>
    let r := p.detector.fit X' y'
    ({ p with preprocessor := pre', detector := r.1 }, r.2)

/-- Pipeline.decision_function from the source: X, _ =
self.preprocessor.transform(X, None); return
self.detector.decision_function(X). -/
def Pipeline.decision_function (p : Pipeline) (X : Data) :
    Except Err Scores :=
  match p.preprocessor.transform X none with
  | .error e => .error e
  | .ok (X', _) => p.detector.decision_function X'

/-- Pipeline.__str__ from the source: the preprocessor rendering, the
separator, the detector rendering. -/
def Pipeline.str (p : Pipeline) : String :=
  p.preprocessor.str ++ "->" ++ p.detector.descr

/-- One step of the left fold the spec describes for FitTransform: feed
the accumulated (data, labels) to the next step and keep its output. -/
def specFoldStep (acc : Except Err (Data × OptLabels)) (p : Preprocessor) :
    Except Err (Data × OptLabels) :=
  match acc with
  | .error e => .error e
  | .ok r => (p.fit_transform r.1 r.2).2

/-- The left fold the spec describes for FitTransform, written from its
words: step i receives the output of step i-1 (the first step receives
the original input) and the final (data, labels) pair is returned. -/
def specFoldFitTransform (ps : List Preprocessor) (X : Data) (y : OptLabels) :
    Except Err (Data × OptLabels) :=
  ps.foldl specFoldStep (.ok (X, y))

/-- An algorithm configuration: the mapping read from the caller or the
JSON file, with the anomaly_detector class identifier and the remaining
constructor parameters. -/
structure AlgorithmConfiguration where
  anomaly_detector : String
  parameters : List (String × Int)
  deriving DecidableEq, Repr

/-- A constructed anomaly-detector instance: the name of the class it was
built from and the parameters it was given. -/
structure TimeSeriesAnomalyDetector where
  cls : String
  parameters : List (String × Int)
  deriving DecidableEq, Repr

/-- A detector class available in the src.anomaly_detection module: load
builds an instance from a configuration, raising whatever construction
error it wants for invalid parameters. -/
structure DetectorClass where
  load : AlgorithmConfiguration → Except Err TimeSeriesAnomalyDetector

/-- The registry of detector classes the dynamic lookup searches: the
attribute table of the src.anomaly_detection module. -/
abbrev Registry := List (String × DetectorClass)

/-- getattr(importlib.import_module(..), name): look the identifier up in
the registry; an absent identifier raises AttributeError, the failure the
spec names UnknownAlgorithm. -/
def getattrRegistry (reg : Registry) (name : String) :
    Except Err DetectorClass :=
  match reg.lookup name with
  | none => .error (.unknownAlgorithm name)
  | some c => .ok c

/-- The argument of handle_algorithm_configuration: a mapping, or a path
to a JSON file holding one. -/
inductive AlgorithmConfigurationArg where
  | dict (cfg : AlgorithmConfiguration)
  | path (file : String)

/-- The configuration the function works on after the optional file read;
fs maps a path to the parsed content of the JSON file there. -/
def readAlgorithmConfiguration (fs : String → AlgorithmConfiguration) :
    AlgorithmConfigurationArg → AlgorithmConfiguration
  | .dict cfg => cfg
  | .path p => fs p

/-- handle_algorithm_configuration from
src/src/workflows/handle_algorithm_configuration.py: read the file when a
path is given, look the anomaly_detector identifier up, and return
whatever loading the class instance returns. -/
def handle_algorithm_configuration (reg : Registry)
    (fs : String → AlgorithmConfiguration)
    (arg : AlgorithmConfigurationArg) :
    Except Err TimeSeriesAnomalyDetector :=
  let cfg := readAlgorithmConfiguration fs arg
  match getattrRegistry reg cfg.anomaly_detector with
  | .error e => .error e
  | .ok c => c.load cfg

/-- The OutputConfiguration of
src/dtaianomaly/workflow/handle_output_configuration.py, with the class
defaults of its source. -/
structure OutputConfiguration where
  directory_path : String
  algorithm_name : String
  verbose : Bool := false
  trace_time : Bool := false
  trace_memory : Bool := false
  print_results : Bool := false
  save_results : Bool := false
  constantly_save_results : Bool := false
  results_file : String := "results.csv"
  save_anomaly_scores_plot : Bool := false
  anomaly_scores_plots_directory : String := "anomaly_score_plots"
  anomaly_scores_plots_file_format : String := "svg"
  anomaly_scores_plots_show_anomaly_scores : String := "overlay"
  anomaly_scores_plots_show_ground_truth : Option String := none
  save_anomaly_scores : Bool := false
  anomaly_scores_directory : String := "anomaly_scores"
  invalid_train_type_raise_error : Bool := true
  deriving DecidableEq, Repr

/-- The directory property: directory_path/algorithm_name. -/
def OutputConfiguration.directory (c : OutputConfiguration) : String :=
  c.directory_path ++ "/" ++ c.algorithm_name

/-- The results_path property. -/
def OutputConfiguration.results_path (c : OutputConfiguration) : String :=
  c.directory ++ "/" ++ c.results_file

/-- The anomaly_score_plots_directory_path property. -/
def OutputConfiguration.anomaly_score_plots_directory_path
    (c : OutputConfiguration) : String :=
  c.directory ++ "/" ++ c.anomaly_scores_plots_directory

/-- The anomaly_scores_directory_path property. -/
def OutputConfiguration.anomaly_scores_directory_path
    (c : OutputConfiguration) : String :=
  c.directory ++ "/" ++ c.anomaly_scores_directory

/-- A plain output configuration: the keyword mapping read from the
caller or a JSON file, each key optional. -/
structure PlainOutputConfiguration where
  directory_path : Option String := none
  algorithm_name : Option String := none
  verbose : Option Bool := none
  trace_time : Option Bool := none
  trace_memory : Option Bool := none
  print_results : Option Bool := none
  save_results : Option Bool := none
  constantly_save_results : Option Bool := none
  results_file : Option String := none
  save_anomaly_scores_plot : Option Bool := none
  anomaly_scores_plots_directory : Option String := none
  anomaly_scores_plots_file_format : Option String := none
  anomaly_scores_plots_show_anomaly_scores : Option String := none
  anomaly_scores_plots_show_ground_truth : Option (Option String) := none
  save_anomaly_scores : Option Bool := none
  anomaly_scores_directory : Option String := none
  invalid_train_type_raise_error : Option Bool := none

/-- OutputConfiguration(**plain, algorithm_name=algorithm_name): each
provided key overrides the class default.  A mapping that itself holds
algorithm_name makes the keyword repeat, a TypeError.  A mapping without
directory_path leaves that attribute unset, and the directory access that
immediately follows in handle_output_configuration raises AttributeError;
that failure is surfaced here at construction since nothing observes the
object in between. -/
def buildOutputConfiguration (plain : PlainOutputConfiguration)
    (algorithm_name : String) : Except Err OutputConfiguration :=
  if plain.algorithm_name.isSome then
    .error (.invalidArgument
      "got multiple values for keyword argument algorithm_name")
  else
    match plain.directory_path with
    | none => .error (.attributeNotFound "directory_path")
    | some dp =>
      .ok {
        directory_path := dp
        algorithm_name := algorithm_name
        verbose := plain.verbose.getD false
        trace_time := plain.trace_time.getD false
        trace_memory := plain.trace_memory.getD false
        print_results := plain.print_results.getD false
        save_results := plain.save_results.getD false
        constantly_save_results := plain.constantly_save_results.getD false
        results_file := plain.results_file.getD "results.csv"
        save_anomaly_scores_plot := plain.save_anomaly_scores_plot.getD false
        anomaly_scores_plots_directory :=
          plain.anomaly_scores_plots_directory.getD "anomaly_score_plots"
        anomaly_scores_plots_file_format :=
          plain.anomaly_scores_plots_file_format.getD "svg"
        anomaly_scores_plots_show_anomaly_scores :=
          plain.anomaly_scores_plots_show_anomaly_scores.getD "overlay"
        anomaly_scores_plots_show_ground_truth :=
          plain.anomaly_scores_plots_show_ground_truth.getD none
        save_anomaly_scores := plain.save_anomaly_scores.getD false
        anomaly_scores_directory :=
          plain.anomaly_scores_directory.getD "anomaly_scores"
        invalid_train_type_raise_error :=
          plain.invalid_train_type_raise_error.getD true }

/-- The argument of handle_output_configuration: an already-built
OutputConfiguration, a mapping, or a path to a JSON file holding one. -/
inductive OutputConfigurationArg where
  | config (c : OutputConfiguration)
  | dict (d : PlainOutputConfiguration)
  | path (file : String)

/-- The directories the function ensures exist as a side effect, returned
explicitly: the base directory always, the plot and score directories when
the corresponding save flag is set. -/
def outputDirectoriesCreated (c : OutputConfiguration) : List String :=
  [c.directory]
    ++ (if c.save_anomaly_scores_plot then
          [c.anomaly_score_plots_directory_path] else [])
    ++ (if c.save_anomaly_scores then
          [c.anomaly_scores_directory_path] else [])

/-- handle_output_configuration from
src/dtaianomaly/workflow/handle_output_configuration.py: an argument that
already is an OutputConfiguration is used as given; otherwise the file is
read when a path is given and the mapping is turned into an
OutputConfiguration with the algorithm name written in.  The directories
created as side effects are returned alongside. -/
def handle_output_configuration (fs : String → PlainOutputConfiguration)
    (plain_output_configuration : OutputConfigurationArg)
    (algorithm_name : String) :
    Except Err (OutputConfiguration × List String) :=
  let oc : Except Err OutputConfiguration :=
    match plain_output_configuration with
    | .config c => .ok c
    | .dict d => buildOutputConfiguration d algorithm_name
    | .path p => buildOutputConfiguration (fs p) algorithm_name
  match oc with
  | .error e => .error e
  | .ok c => .ok (c, outputDirectoriesCreated c)

/-- Folding the spec step over any tail from a failed accumulator keeps the
failure. -/
theorem specFoldStep_foldl_error (ps : List Preprocessor) (e : Err) :
    List.foldl specFoldStep (Except.error e) ps = Except.error e := by
  induction ps with
  | nil => rfl
  | cons p rest ih => simpa [specFoldStep] using ih

/-- The (data, labels) result of the chained fold agrees with the spec fold
on every sequence, empty or not. -/
theorem chained_fit_transform_snd_eq_spec_fold (ps : List Preprocessor) :
    ∀ (X : Data) (y : OptLabels),
      (ChainedPreprocessor.fit_transform ps X y).2 =
        specFoldFitTransform ps X y := by
  induction ps with
  | nil => intro X y; rfl
  | cons p rest ih =>
    intro X y
    rcases hp : p.fit_transform X y with ⟨p', r⟩
    cases r with
    | error e =>
      simp [ChainedPreprocessor.fit_transform, specFoldFitTransform,
        List.foldl, specFoldStep, hp, specFoldStep_foldl_error]
    | ok Xy =>
      rcases Xy with ⟨X', y'⟩
      simpa [ChainedPreprocessor.fit_transform, specFoldFitTransform,
        List.foldl, specFoldStep, hp] using ih X' y'

/-- Claim C1: for every non-empty sequence of conforming Preprocessors and
every input (data, labels), the Chained Preprocessor FitTransform equals a
left fold of fit_transform over the sequence in construction order: step i
receives the output of step i-1 (the first step receives the original
input), and the final (data, labels) pair is returned. -/
theorem chained_fit_transform_is_left_fold (p : Preprocessor)
    (rest : List Preprocessor) (X : Data) (y : OptLabels) :
    (ChainedPreprocessor.fit_transform (p :: rest) X y).2 =
      specFoldFitTransform (p :: rest) X y :=
  chained_fit_transform_snd_eq_spec_fold (p :: rest) X y

/-- Claim C2: for every argument pair where the preprocessor argument is
neither a single value satisfying the Preprocessor capability nor a valid
sequence of such values, or where the detector argument does not satisfy
the Detector capability, Pipeline construction fails immediately with
InvalidArgument and no Pipeline object is produced. -/
theorem pipeline_init_invalid_argument (oid : Nat) (pre det : PyVal)
    (h : (isinstancePreprocessor pre = false ∧ is_valid_list pre = false) ∨
      isinstanceBaseDetector det = false) :
    ∃ msg, Pipeline.init oid pre det = .error (.invalidArgument msg) := by
  unfold Pipeline.init
  rcases h with ⟨h1, h2⟩ | h3
  · rw [h1, h2]
    exact ⟨_, rfl⟩
  · rcases hab : (isinstancePreprocessor pre || is_valid_list pre) with _ | _
    · exact ⟨_, rfl⟩
    · rw [h3]
      exact ⟨_, rfl⟩

/-- Witness for C2 at a concrete invalid input. -/
theorem pipeline_init_invalid_argument_witness :
    ∃ msg, Pipeline.init 0 (.other 0) (.other 1) =
      .error (.invalidArgument msg) :=
  pipeline_init_invalid_argument 0 (.other 0) (.other 1) (.inl ⟨rfl, rfl⟩)

/-- Lifting a list of Preprocessor values back out of the Python list that
wraps them. -/
theorem extractPreprocessors_map (ps : List Preprocessor) :
    extractPreprocessors (ps.map PyVal.preproc) = some ps := by
  induction ps with
  | nil => rfl
  | cons p rest ih => simp [extractPreprocessors, ih]

/-- Claim C3: constructing a Pipeline from an empty preprocessor sequence
fails at construction time with InvalidArgument, never deferred to fit
time; for every non-empty sequence of valid Preprocessors (and a valid
detector), construction succeeds and wraps the sequence in a Chained
Preprocessor. -/
theorem pipeline_init_empty_vs_nonempty :
    (∀ (oid : Nat) (det : PyVal),
        Pipeline.init oid (.pyList []) det =
          .error (.invalidArgument
            "preprocessor expects a Preprocessor object or list of Preprocessors")) ∧
    (∀ (oid : Nat) (p : Preprocessor) (ps : List Preprocessor)
        (d : BaseDetector),
        Pipeline.init oid (.pyList ((p :: ps).map PyVal.preproc))
            (.detector d) =
          .ok ⟨oid, d.supervision, .chained (p :: ps), d⟩) := by
  constructor
  · intro oid det
    rfl
  · intro oid p ps d
    simp [Pipeline.init, isinstancePreprocessor, isinstanceBaseDetector,
      is_valid_list, List.all_map, Function.comp, ChainedPreprocessor.init,
      extractPreprocessors, extractPreprocessors_map, Option.map, Except.map]

/-- An identity preprocessor stub that counts how often it was fit. -/
def identityPre : Preprocessor :=
  ⟨⟨fun st X y => (st + 1, .ok (X, y)),
    fun _ X y => .ok (X, y), "Identity"⟩, 0⟩

/-- A detector stub that records how much data it saw and scores one per
element. -/
def onesDetector : BaseDetector :=
  ⟨⟨fun st X _ => (st + X.length, none),
    fun _ X => .ok (X.map fun _ => (1 : Rat)),
    .unsupervised, "D"⟩, 0⟩

/-- Claim C4: for every successfully constructed Pipeline, its reported
supervision mode equals the wrapped Detector supervision mode, regardless
of the preprocessor configuration, and fit — the only operation mutating
the Pipeline — changes neither the stored mode nor the detector mode, so
the equality is preserved by every subsequent operation. -/
theorem pipeline_supervision_invariant :
    (∀ (oid : Nat) (pre det : PyVal) (pl : Pipeline),
        Pipeline.init oid pre det = .ok pl →
        pl.supervision = pl.detector.supervision) ∧
    (∀ (pl : Pipeline) (X : Data) (y : OptLabels),
        ((pl.fit X y).1).supervision = pl.supervision ∧
        ((pl.fit X y).1).detector.supervision = pl.detector.supervision) := by
  constructor
  · intro oid pre det pl h
    unfold Pipeline.init at h
    split at h
    · exact absurd h (by simp)
    · split at h
      · exact absurd h (by simp)
      · split at h
        · rename_i vs d hc1 hc2
          rcases hci : ChainedPreprocessor.init vs with e | ps <;>
            rw [hci] at h <;> simp only [Except.map] at h
          · exact absurd h (by simp)
          · simp only [Except.ok.injEq] at h
            subst h
            rfl
        · simp only [Except.ok.injEq] at h
          subst h
          rfl
        · exact absurd h (by simp)
  · intro pl X y
    rcases hft : pl.preprocessor.fit_transform X y with ⟨pre', r⟩
    cases r with
    | error e =>
      simp [Pipeline.fit, hft]
    | ok Xy =>
      rcases Xy with ⟨X', y'⟩
      simp [Pipeline.fit, hft, BaseDetector.fit, BaseDetector.supervision]

/-- Witness for C4: a concretely constructed and then fit Pipeline keeps
the supervision mode of its detector. -/
theorem pipeline_supervision_invariant_witness :
    (⟨0, Supervision.unsupervised, .base identityPre, onesDetector⟩ :
        Pipeline).supervision =
      (⟨0, Supervision.unsupervised, .base identityPre, onesDetector⟩ :
        Pipeline).detector.supervision :=
  pipeline_supervision_invariant.1 0 (.preproc identityPre)
    (.detector onesDetector) _ rfl

/-- The Pipeline of C5: an identity preprocessor in front of the counting
detector. -/
def fitDemoPipeline : Pipeline :=
  ⟨7, .unsupervised, .base identityPre, onesDetector⟩

/-- The same Pipeline object after one fit on two samples: the
preprocessor was fit once and the detector saw two samples. -/
def fitDemoPipelineAfter : Pipeline :=
  ⟨7, .unsupervised, .base ⟨identityPre.behavior, 1⟩,
    ⟨onesDetector.behavior, 2⟩⟩

/-- Claim C5: for every Pipeline and every (data, labels) input, Fit first
runs the preprocessor fit_transform on (data, labels), then runs the
detector fit on the transformed pair, and returns the very same Pipeline
instance (same object identity) with only its component states mutated,
enabling fluent chaining. -/
theorem pipeline_fit_delegates_and_returns_self :
    (∀ (pl : Pipeline) (X : Data) (y : OptLabels),
        ((pl.fit X y).1).oid = pl.oid) ∧
    (∀ (pl : Pipeline) (X : Data) (y : OptLabels) (pl' : Pipeline),
        pl.fit X y = (pl', none) →
        ∃ pre' X' y',
          pl.preprocessor.fit_transform X y = (pre', Except.ok (X', y')) ∧
          (pl.detector.fit X' y').2 = none ∧
          pl' = { pl with preprocessor := pre',
                          detector := (pl.detector.fit X' y').1 }) := by
  constructor
  · intro pl X y
    rcases hft : pl.preprocessor.fit_transform X y with ⟨pre', r⟩
    cases r with
    | error e => simp [Pipeline.fit, hft]
    | ok Xy =>
      rcases Xy with ⟨X', y'⟩
      simp [Pipeline.fit, hft]
  · intro pl X y pl' h
    rcases hft : pl.preprocessor.fit_transform X y with ⟨pre', r⟩
    cases r with
    | error e =>
      simp [Pipeline.fit, hft] at h
    | ok Xy =>
      rcases Xy with ⟨X', y'⟩
      simp [Pipeline.fit, hft] at h
      exact ⟨pre', X', y', rfl, h.2, h.1.symm⟩

/-- Witness for C5: the concrete Pipeline is fit on two samples; the
detector receives the identity-transformed data and the returned object is
the same Pipeline with only the component states advanced. -/
theorem pipeline_fit_delegates_and_returns_self_witness :
    ∃ pre' X' y',
      fitDemoPipeline.preprocessor.fit_transform [1, 2] none =
        (pre', Except.ok (X', y')) ∧
      (fitDemoPipeline.detector.fit X' y').2 = none ∧
      fitDemoPipelineAfter =
        { fitDemoPipeline with
          preprocessor := pre'
          detector := (fitDemoPipeline.detector.fit X' y').1 } :=
  pipeline_fit_delegates_and_returns_self.2 fitDemoPipeline [1, 2] none
    fitDemoPipelineAfter rfl

/-- A preprocessor stub that drops the last element of its input. -/
def dropLastPre : Preprocessor :=
  ⟨⟨fun st X y => (st, .ok (X.dropLast, y)),
    fun _ X y => .ok (X.dropLast, y), "DropLast"⟩, 0⟩

/-- The Pipeline of C6: the drop-last stub in front of the
one-per-element detector. -/
def shapeDemoPipeline : Pipeline :=
  ⟨0, .unsupervised, .base dropLastPre, onesDetector⟩

/-- Claim C6: for every fitted Pipeline and every data input, Score runs
the preprocessor transform with labels absent, discards the transformed
labels, and returns exactly the detector score on the transformed data;
the output length is not forced to match the input length — with a stub
Preprocessor dropping the last element and a stub Detector scoring one per
remaining element, Score on four samples returns three ones. -/
theorem pipeline_score_on_transformed_data :
    (∀ (pl : Pipeline) (X X' : Data) (ylab : OptLabels),
        pl.preprocessor.transform X none = .ok (X', ylab) →
        pl.decision_function X = pl.detector.decision_function X') ∧
    shapeDemoPipeline.decision_function [0, 0, 0, 0] =
      .ok [(1 : Rat), 1, 1] := by
  constructor
  · intro pl X X' ylab h
    unfold Pipeline.decision_function
    rw [h]
  · rfl

/-- Witness for C6: the drop-last Pipeline hands exactly the three
remaining samples to its detector. -/
theorem pipeline_score_on_transformed_data_witness :
    shapeDemoPipeline.decision_function [0, 0, 0, 0] =
      shapeDemoPipeline.detector.decision_function [0, 0, 0] :=
  pipeline_score_on_transformed_data.1 shapeDemoPipeline [0, 0, 0, 0]
    [0, 0, 0] none rfl

/-- A detector stub whose fit mutates its state and then raises, and whose
scoring raises as well. -/
def failingDetector : BaseDetector :=
  ⟨⟨fun st _ _ => (st + 1, some (.componentFailure 42)),
    fun _ _ => .error (.componentFailure 43), .unsupervised, "Failing"⟩, 0⟩

/-- The Pipeline of C7: an identity preprocessor in front of the failing
detector. -/
def fragileDemoPipeline : Pipeline :=
  ⟨3, .unsupervised, .base identityPre, failingDetector⟩

/-- Claim C7: for every Pipeline, any failure raised by a wrapped
component during Fit or Score is propagated to the caller unmodified and
unwrapped, and there is no rollback: when the detector fit fails after the
preprocessor fit_transform succeeded, the returned object keeps the
mutated preprocessor state (and whatever state the detector reached). -/
theorem pipeline_error_passthrough :
    (∀ (pl : Pipeline) (X : Data) (y : OptLabels)
        (pre' : AnyPreprocessor) (e : Err),
        pl.preprocessor.fit_transform X y = (pre', .error e) →
        pl.fit X y = ({ pl with preprocessor := pre' }, some e)) ∧
    (∀ (pl : Pipeline) (X : Data) (y : OptLabels) (pre' : AnyPreprocessor)
        (X' : Data) (y' : OptLabels) (e : Err),
        pl.preprocessor.fit_transform X y = (pre', .ok (X', y')) →
        (pl.detector.fit X' y').2 = some e →
        pl.fit X y =
          ({ pl with
             preprocessor := pre'
             detector := (pl.detector.fit X' y').1 }, some e)) ∧
    (∀ (pl : Pipeline) (X : Data) (e : Err),
        pl.preprocessor.transform X none = .error e →
        pl.decision_function X = .error e) ∧
    (∀ (pl : Pipeline) (X X' : Data) (ylab : OptLabels) (e : Err),
        pl.preprocessor.transform X none = .ok (X', ylab) →
        pl.detector.decision_function X' = .error e →
        pl.decision_function X = .error e) := by
  refine ⟨?_, ?_, ?_, ?_⟩
  · intro pl X y pre' e h
    simp [Pipeline.fit, h]
  · intro pl X y pre' X' y' e h hd
    simp [Pipeline.fit, h, hd]
  · intro pl X e h
    simp [Pipeline.decision_function, h]
  · intro pl X X' ylab e h hd
    simp [Pipeline.decision_function, h, hd]

/-- Witness for C7: the identity preprocessor fits (state one) and the
detector then raises; the raised failure comes back as is and the returned
object keeps both mutated component states. -/
theorem pipeline_error_passthrough_witness :
    fragileDemoPipeline.fit [5] none =
      ({ fragileDemoPipeline with
         preprocessor := .base ⟨identityPre.behavior, 1⟩
         detector := (fragileDemoPipeline.detector.fit [5] none).1 },
        some (.componentFailure 42)) :=
  pipeline_error_passthrough.2.1 fragileDemoPipeline [5] none
    (.base ⟨identityPre.behavior, 1⟩) [5] none (.componentFailure 42) rfl rfl

/-- Claim C8: for every algorithm configuration (mapping or JSON path)
whose detector-class identifier has no registered class, the configuration
loader fails with UnknownAlgorithm; for every identifier with a registered
class, it returns exactly what loading that class yields, so a
construction error the class raises for invalid parameters is propagated
as is. -/
theorem handle_algorithm_configuration_lookup :
    (∀ (reg : Registry) (fs : String → AlgorithmConfiguration)
        (arg : AlgorithmConfigurationArg),
        reg.lookup (readAlgorithmConfiguration fs arg).anomaly_detector =
          none →
        handle_algorithm_configuration reg fs arg =
          .error (.unknownAlgorithm
            (readAlgorithmConfiguration fs arg).anomaly_detector)) ∧
    (∀ (reg : Registry) (fs : String → AlgorithmConfiguration)
        (arg : AlgorithmConfigurationArg) (c : DetectorClass),
        reg.lookup (readAlgorithmConfiguration fs arg).anomaly_detector =
          some c →
        handle_algorithm_configuration reg fs arg =
          c.load (readAlgorithmConfiguration fs arg)) := by
  constructor
  · intro reg fs arg h
    simp [handle_algorithm_configuration, getattrRegistry, h]
  · intro reg fs arg c h
    simp [handle_algorithm_configuration, getattrRegistry, h]

/-- A demonstration detector class: loading records the class name and the
given parameters. -/
def demoDetectorClass : DetectorClass :=
  ⟨fun cfg => .ok ⟨"IsolationForest", cfg.parameters⟩⟩

/-- A registry holding exactly the demonstration class. -/
def demoRegistry : Registry := [("IsolationForest", demoDetectorClass)]

/-- A configuration naming the registered class. -/
def demoAlgorithmConfiguration : AlgorithmConfiguration :=
  ⟨"IsolationForest", [("n_estimators", 100)]⟩

/-- A configuration naming an unregistered class. -/
def missingAlgorithmConfiguration : AlgorithmConfiguration :=
  ⟨"NoSuchDetector", []⟩

/-- Witness for C8: the unregistered identifier fails with
UnknownAlgorithm and the registered one is loaded from its class. -/
theorem handle_algorithm_configuration_lookup_witness :
    handle_algorithm_configuration demoRegistry
        (fun _ => demoAlgorithmConfiguration)
        (.dict missingAlgorithmConfiguration) =
      .error (.unknownAlgorithm "NoSuchDetector") ∧
    handle_algorithm_configuration demoRegistry
        (fun _ => demoAlgorithmConfiguration)
        (.dict demoAlgorithmConfiguration) =
      .ok ⟨"IsolationForest", [("n_estimators", 100)]⟩ :=
  ⟨handle_algorithm_configuration_lookup.1 demoRegistry
      (fun _ => demoAlgorithmConfiguration)
      (.dict missingAlgorithmConfiguration) rfl,
    (handle_algorithm_configuration_lookup.2 demoRegistry
      (fun _ => demoAlgorithmConfiguration)
      (.dict demoAlgorithmConfiguration) demoDetectorClass rfl).trans rfl⟩

/-- An identity preprocessor step rendered as A. -/
def stepAPre : Preprocessor :=
  ⟨⟨fun st X y => (st, .ok (X, y)), fun _ X y => .ok (X, y), "A"⟩, 0⟩

/-- An identity preprocessor step rendered as B. -/
def stepBPre : Preprocessor :=
  ⟨⟨fun st X y => (st, .ok (X, y)), fun _ X y => .ok (X, y), "B"⟩, 0⟩

/-- The Pipeline of C9: a two-step chain in front of the detector named
D (onesDetector renders as D). -/
def describeDemoPipeline : Pipeline :=
  ⟨0, .unsupervised, .chained [stepAPre, stepBPre], onesDetector⟩

/-- Claim C9: for every Pipeline, Describe returns the preprocessor
rendering, then the separator, then the detector rendering, recursively
rendering nested composition; for a Pipeline with a two-step chain and a
detector named D the rendered string holds both step renderings in order
followed by D. -/
theorem pipeline_describe_composition :
    (∀ pl : Pipeline,
        pl.str = pl.preprocessor.str ++ "->" ++ pl.detector.descr) ∧
    describeDemoPipeline.str = "A" ++ "->" ++ "B" ++ "->" ++ "D" := by
  exact ⟨fun pl => rfl, by rfl⟩

/-- Building an OutputConfiguration from a mapping writes the given
algorithm name into the algorithm_name field. -/
theorem buildOutputConfiguration_algorithm_name
    (d : PlainOutputConfiguration) (n : String) (c : OutputConfiguration)
    (h : buildOutputConfiguration d n = .ok c) : c.algorithm_name = n := by
  unfold buildOutputConfiguration at h
  split at h
  · exact absurd h (by simp)
  · split at h
    · exact absurd h (by simp)
    · simp only [Except.ok.injEq] at h
      subst h
      rfl

/-- Claim C10: for every already-constructed OutputConfiguration passed to
the output-configuration resolver, the resolver returns that very object
with all of its fields unchanged and the algorithm-name argument is
ignored; the name is written into the configuration exactly when the input
is a mapping or a JSON path. -/
theorem handle_output_configuration_frame :
    (∀ (fs : String → PlainOutputConfiguration) (c : OutputConfiguration)
        (n1 n2 : String),
        handle_output_configuration fs (.config c) n1 =
          .ok (c, outputDirectoriesCreated c) ∧
        handle_output_configuration fs (.config c) n1 =
          handle_output_configuration fs (.config c) n2) ∧
    (∀ (fs : String → PlainOutputConfiguration)
        (d : PlainOutputConfiguration) (n : String)
        (c : OutputConfiguration) (dirs : List String),
        handle_output_configuration fs (.dict d) n = .ok (c, dirs) →
        c.algorithm_name = n) ∧
    (∀ (fs : String → PlainOutputConfiguration) (p n : String)
        (c : OutputConfiguration) (dirs : List String),
        handle_output_configuration fs (.path p) n = .ok (c, dirs) →
        c.algorithm_name = n) := by
  refine ⟨fun fs c n1 n2 => ⟨rfl, rfl⟩, ?_, ?_⟩
  · intro fs d n c dirs h
    simp only [handle_output_configuration] at h
    rcases hb : buildOutputConfiguration d n with e | c' <;>
      rw [hb] at h <;> simp at h
    rw [← h.1]
    exact buildOutputConfiguration_algorithm_name d n c' hb
  · intro fs p n c dirs h
    simp only [handle_output_configuration] at h
    rcases hb : buildOutputConfiguration (fs p) n with e | c' <;>
      rw [hb] at h <;> simp at h
    rw [← h.1]
    exact buildOutputConfiguration_algorithm_name (fs p) n c' hb

/-- A mapping holding only a directory path. -/
def demoPlainOutput : PlainOutputConfiguration :=
  { directory_path := some "out" }

/-- The configuration that mapping yields for the algorithm named algo. -/
def demoBuiltOutput : OutputConfiguration :=
  { directory_path := "out", algorithm_name := "algo" }

/-- Witness for C10: resolving the mapping for the algorithm named algo
yields a configuration carrying that name. -/
theorem handle_output_configuration_frame_witness :
    demoBuiltOutput.algorithm_name = "algo" :=
  handle_output_configuration_frame.2.1 (fun _ => demoPlainOutput)
    demoPlainOutput "algo" demoBuiltOutput
    (outputDirectoriesCreated demoBuiltOutput) rfl
